import Mathlib

/-!
# Verification of the Ruuvi → Particle decoding pipeline

Shallow embedding of the decoding layer of `ruuvi_to_particle.py` and of the
error handling of the Particle cloud client (`pyparticle/__init__.py`).

Modelling conventions:
* a Python `bytes` value is a `List Nat` whose elements are byte values 0–255;
* Python floats are modelled as rationals (`ℚ`).  Every float produced by the
  decoder is a 16-bit integer divided by 100, 200, 1000, 10 or 1, and the
  plausibility bounds (−40, 85, 0, 100, 300, 1200) are exactly representable
  as doubles, with the quotients at least 1/1000 apart from each other, so the
  float comparisons in the source and the rational comparisons here agree;
* the source's final `round(x, 2)` is not modelled: it is applied after the
  plausibility check and after the winning hypothesis is chosen, so it affects
  neither which payloads decode nor which hypothesis wins, and readings are
  reported here unrounded;
* Python exceptions raised by `Particle.api` are modelled with `Except`.
-/

set_option maxRecDepth 8000

namespace RuuviParticle

/-! ## Embedding of `parse_ruuvi_manufacturer_data` (ruuvi_to_particle.py) -/

/-- `binascii.hexlify(data)`, viewed as the list of hex digits (values 0–15):
each byte contributes its high nibble then its low nibble. -/
def hexDigits (data : List Nat) : List Nat :=
  data.flatMap fun b => [b / 16, b % 16]

/-- The company-id marker searched for in the hex string: `'9904'`. -/
def ruuviMarker : List Nat := [9, 9, 0, 4]

/-- `hexs.find(pat)`: index of the first occurrence of `pat` in `l`,
`none` when absent (the source's `-1` / the `in` test). -/
def findSubstring (pat l : List Nat) : Option Nat :=
  (List.range l.length).find? fun i => pat.isPrefixOf (l.drop i)

/-- Company-id stripping (lines 77–91 of the source): if `'9904'` occurs in
the hex string at character index `idx`, the payload is `data[idx//2 + 2:]`;
otherwise the whole buffer is the payload. -/
def extractPayload (data : List Nat) : List Nat :=
  match findSubstring ruuviMarker (hexDigits data) with
  | some idx => data.drop (idx / 2 + 2)
  | none => data

/-- The two byte orders tried by the source: `'>'` (big) and `'<'` (little). -/
inductive Endian where
  | be
  | le
deriving DecidableEq, Repr

/-- Reassemble two bytes into a 16-bit word under a byte order
(`struct.unpack(endian + 'H', ...)` on exactly two bytes). -/
def unpack16 : Endian → Nat → Nat → Nat
  | .be, b0, b1 => b0 * 256 + b1
  | .le, b0, b1 => b1 * 256 + b0

/-- Two's-complement reading of a 16-bit word
(`struct.unpack(endian + 'h', ...)`). -/
def toSigned (n : Nat) : Int :=
  if n % 65536 < 32768 then (n % 65536 : Int) else (n % 65536 : Int) - 65536

/-- The sanity check of line 125 of the source:
`-40.0 <= temperature <= 85.0 and 0.0 <= humidity <= 100.0 and
300.0 <= pressure <= 1200.0`. -/
def sane (t h p : ℚ) : Bool :=
  decide (-40 ≤ t) && decide (t ≤ 85) && decide (0 ≤ h) && decide (h ≤ 100) &&
    decide (300 ≤ p) && decide (p ≤ 1200)

/-- One entry of the source's `candidates` list:
`(temperature, humidity, pressure, endian, t_scale, p_scale)`. -/
structure Candidate where
  temperature : ℚ
  humidity : ℚ
  pressure : ℚ
  endian : Endian
  tScale : ℚ
  pScale : ℚ
deriving DecidableEq, Repr

/-- The candidate built from one (endian, t_scale, p_scale) hypothesis:
`t_raw / t_scale`, `float(h_byte)`, `p_raw / p_scale`, with
`t_bytes = payload[1:3]`, `h_byte = payload[3]`, `p_bytes = payload[4:6]`
(the caller guarantees `len(payload) >= 8`, so the `getD` defaults are
never used on the paths that build candidates). -/
def evalHyp (payload : List Nat) (e : Endian) (tScale pScale : ℚ) : Candidate :=
  { temperature :=
      ((toSigned (unpack16 e (payload.getD 1 0) (payload.getD 2 0)) : ℚ) / tScale)
    humidity := (payload.getD 3 0 : ℚ)
    pressure := ((unpack16 e (payload.getD 4 0) (payload.getD 5 0) : ℚ) / pScale)
    endian := e
    tScale := tScale
    pScale := pScale }

/-- The sanity check applied to a candidate's three physical fields. -/
def saneC (c : Candidate) : Bool :=
  sane c.temperature c.humidity c.pressure

/-- The `candidates` list built by the nested loops of lines 108–126:
endian `'>'` then `'<'`; `t_scale` 100, 200, 1000; `p_scale` 10, 1;
a candidate is appended exactly when the sanity check passes. -/
def candidatesFor (payload : List Nat) : List Candidate :=
  [Endian.be, Endian.le].flatMap fun e =>
    [(100 : ℚ), 200, 1000].flatMap fun tScale =>
      [(10 : ℚ), 1].filterMap fun pScale =>
        if saneC (evalHyp payload e tScale pScale) then
          some (evalHyp payload e tScale pScale)
        else none

/-- Lines 128–130: `if candidates: ... = candidates[0]`, else fall through. -/
def heuristicDecode (payload : List Nat) : Option Candidate :=
  (candidatesFor payload).head?

/-- The format tags admitted by line 101: `fmt in (2, 3, 4, 5, 6, 8)`. -/
def knownFormats : List Nat := [2, 3, 4, 5, 6, 8]

/-- The dict returned on success (format tag and the three physical values;
the source's `round(·, 2)` is omitted, see the module comment). -/
structure Reading where
  format : Nat
  temperature : ℚ
  humidity : ℚ
  pressure : ℚ
deriving DecidableEq, Repr

/-- `parse_ruuvi_manufacturer_data` (lines 67–140).  The local Python
variables `payload` and `fmt` are inlined as `extractPayload data` and
`(extractPayload data).getD 0 0`.  The `try/except` around the candidate
search is dropped: with `len(payload) >= 8` established, the slices
`payload[1:3]` and `payload[4:6]` have exactly two bytes, so the
`struct.unpack` calls cannot raise. -/
def parse_ruuvi_manufacturer_data (data : List Nat) : Option Reading :=
  if data.length < 3 then none
  else if 8 ≤ (extractPayload data).length then
    if (extractPayload data).getD 0 0 ∈ knownFormats then
      match heuristicDecode (extractPayload data) with
      | some c => some { format := (extractPayload data).getD 0 0,
                         temperature := c.temperature,
                         humidity := c.humidity,
                         pressure := c.pressure }
      | none => none
    else none
  else none

/-! ## Embedding of the payload selection loop of `scan_and_publish`
(lines 201–212) -/

/-- The 2-byte iBeacon signature `b"\x02\x15"`. -/
def iBeaconSig : List Nat := [2, 21]

/-- The selection loop over the manufacturer-data dict: skip every payload
whose first two bytes (`bytes(v[:2])`) equal the iBeacon signature, take the
first remaining one (Python dicts iterate in insertion order, so the dict's
values are modelled as a list in that order). -/
def selectManufacturerPayload (payloads : List (List Nat)) : Option (List Nat) :=
  payloads.find? fun v => v.take 2 != iBeaconSig

/-! ## Embedding of `Particle.api` error handling (pyparticle/__init__.py) -/

/-- `INVALID_DETAILS_MESSAGE` (line 13 of pyparticle). -/
def INVALID_DETAILS_MESSAGE : String := "User credentials are invalid"

/-- The exceptions `Particle.api` can raise on a non-success response:
the distinguished `LoginError`, or a generic `Exception` with a message. -/
inductive ApiFailure where
  | loginError
  | apiError (msg : String)
deriving DecidableEq, Repr

/-- The HTTP response as seen by `Particle.api` after `json.loads`:
status code, the optional `error_description` and `error` fields of the
parsed JSON object, and the raw response text. -/
structure ApiResponse where
  statusCode : Nat
  errorDescription : Option String
  error : Option String
  text : String

/-- The response interpretation of `Particle.api` (lines 64–79):
on a non-200 status, raise `LoginError` when `error_description` equals the
fixed invalid-credentials message, else an `Exception` whose message is
`error_description` when present, else the `error` field when present, else
`'API Error (Status %d): %s'` with the status and raw body; on a 200 status
return the parsed object. -/
def Particle.api (r : ApiResponse) : Except ApiFailure ApiResponse :=
  if r.statusCode ≠ 200 then
    match r.errorDescription with
    | some d =>
      if d = INVALID_DETAILS_MESSAGE then .error .loginError
      else .error (.apiError d)
    | none =>
      match r.error with
      | some e => .error (.apiError e)
      | none =>
        .error (.apiError
          ("API Error (Status " ++ toString r.statusCode ++ "): " ++ r.text))
  else .ok r

/-! ## Concrete payloads from the spec's end-to-end scenarios -/

/-- Scenario 1 payload: `05 01 F4 00 64 C3 50`, zero-padded to 24 bytes. -/
def payload05 : List Nat := [0x05, 0x01, 0xF4, 0x00, 0x64, 0xC3, 0x50] ++ List.replicate 17 0

/-- Scenario 2 payload: `03 32 14 32 C3 50`, zero-padded to 14 bytes. -/
def payload03 : List Nat := [0x03, 0x32, 0x14, 0x32, 0xC3, 0x50] ++ List.replicate 8 0

/-- Scenario 3 payload: tag `09`, big-endian temperature field 2200
(`08 98`), humidity byte 45, big-endian pressure field 10000 (`27 10`),
padded to 8 bytes. -/
def payload09 : List Nat := [0x09, 0x08, 0x98, 45, 0x27, 0x10, 0x00, 0x00]

/-- A tag-2 payload realising the spec's tie-break scenario: both the
(big-endian, ÷100, ÷10) and the (big-endian, ÷200, ÷10) hypotheses are in
range (22 °C / 11 °C, 45 %, 1000 hPa). -/
def payloadTie : List Nat := [0x02, 0x08, 0x98, 45, 0x27, 0x10, 0x00, 0x00]

/-- A 7-byte payload (one byte short of the heuristic window requirement). -/
def data7 : List Nat := [5, 1, 2, 3, 4, 5, 6]

/-- A manufacturer-data dict whose first payload is an iBeacon frame and
whose second is Ruuvi-like. -/
def advPayloads : List (List Nat) := [[2, 21, 0, 7], [8, 1, 2, 3, 4, 5, 6, 7]]

/-- The 12 (endian, t_scale, p_scale) hypotheses in the exact order the
source's nested loops enumerate them. -/
def searchOrder : List (Endian × ℚ × ℚ) :=
  [(Endian.be, 100, 10), (Endian.be, 100, 1),
   (Endian.be, 200, 10), (Endian.be, 200, 1),
   (Endian.be, 1000, 10), (Endian.be, 1000, 1),
   (Endian.le, 100, 10), (Endian.le, 100, 1),
   (Endian.le, 200, 10), (Endian.le, 200, 1),
   (Endian.le, 1000, 10), (Endian.le, 1000, 1)]

/-- A 400 response whose `error_description` is the invalid-credentials
message. -/
def respInvalid : ApiResponse :=
  { statusCode := 400, errorDescription := some INVALID_DETAILS_MESSAGE,
    error := none, text := "" }

/-- A 500 response with no `error_description` and a generic `error` field. -/
def respPlain : ApiResponse :=
  { statusCode := 500, errorDescription := none, error := some "boom",
    text := "raw" }

/-! ## Helper lemmas -/

/-- When the company-id marker does not occur in the hex string, the whole
buffer is the payload. -/
theorem extractPayload_of_no_marker (data : List Nat)
    (h : findSubstring ruuviMarker (hexDigits data) = none) :
    extractPayload data = data := by
  unfold extractPayload
  rw [h]

/-- On a buffer of sufficient length with no company-id marker and a known
format tag, the parser returns exactly the first accepted candidate of the
hypothesis search (or nothing). -/
theorem parse_eq_heuristic_of_known (data : List Nat)
    (h3 : ¬ data.length < 3)
    (hno : findSubstring ruuviMarker (hexDigits data) = none)
    (h8 : 8 ≤ data.length)
    (hfmt : data.getD 0 0 ∈ knownFormats) :
    parse_ruuvi_manufacturer_data data =
      match heuristicDecode data with
      | some c => some { format := data.getD 0 0, temperature := c.temperature,
                         humidity := c.humidity, pressure := c.pressure }
      | none => none := by
  have hex : extractPayload data = data := extractPayload_of_no_marker data hno
  unfold parse_ruuvi_manufacturer_data
  rw [hex, if_neg h3, if_pos h8, if_pos hfmt]

/-- Every candidate the search collects passes the sanity check. -/
theorem saneC_of_mem_candidatesFor {payload : List Nat} {c : Candidate}
    (h : c ∈ candidatesFor payload) : saneC c = true := by
  unfold candidatesFor at h
  simp only [List.mem_flatMap, List.mem_filterMap] at h
  obtain ⟨e, -, ts, -, ps, -, hc⟩ := h
  split at hc
  · cases hc
    assumption
  · exact absurd hc (by simp)

/-- `find?` returns the first element satisfying the predicate: the list
splits around the result, with the predicate false on everything before. -/
theorem find?_eq_some_split {α : Type} (p : α → Bool) (l : List α) (v : α)
    (h : l.find? p = some v) :
    ∃ pre post, l = pre ++ v :: post ∧ ∀ u ∈ pre, p u = false := by
  induction l with
  | nil => simp [List.find?] at h
  | cons a t ih =>
    by_cases ha : p a = true
    · rw [List.find?_cons_of_pos t ha] at h
      cases h
      exact ⟨[], t, rfl, by simp⟩
    · rw [List.find?_cons_of_neg t ha] at h
      obtain ⟨pre, post, heq, hpre⟩ := ih h
      refine ⟨a :: pre, post, by rw [heq]; rfl, fun u hu => ?_⟩
      rcases List.mem_cons.mp hu with rfl | hu2
      · revert ha
        cases p u <;> simp
      · exact hpre u hu2

/-! ## Claim theorems -/

/-- C1 (counterexample): the scenario-1 payload `05 01 F4 00 64 C3 50`
padded to 24 bytes does NOT decode to temperature 2.50 °C, humidity 0.25 %,
pressure 1000.00 hPa — the parser has no exact RAWv2 decoder, runs the
heuristic window search on tag-5 payloads, finds no hypothesis in range
for this payload, and returns `None`. -/
theorem scenario1_payload_not_decoded :
    parse_ruuvi_manufacturer_data payload05 = none := by
  with_unfolding_all decide

/-- C1 (amended): a 24-byte payload with format tag 5 (and no company-id
marker) is decoded by the heuristic byte-order/scale search over the 6-byte
window, not by the exact RAWv2 layout: the result is exactly the first
accepted candidate of that search, or `None` when no hypothesis is in
range. -/
theorem tag5_decoded_by_heuristic (data : List Nat)
    (hlen : data.length = 24)
    (hno : findSubstring ruuviMarker (hexDigits data) = none)
    (hfmt : data.getD 0 0 = 5) :
    parse_ruuvi_manufacturer_data data =
      match heuristicDecode data with
      | some c => some { format := 5, temperature := c.temperature,
                         humidity := c.humidity, pressure := c.pressure }
      | none => none := by
  have h := parse_eq_heuristic_of_known data (by omega) hno (by omega)
    (by rw [hfmt]; decide)
  rw [hfmt] at h
  exact h

/-- Witness for C1 (amended) at the scenario-1 payload. -/
theorem tag5_decoded_by_heuristic_witness :
    payload05.length = 24 ∧
    findSubstring ruuviMarker (hexDigits payload05) = none ∧
    payload05.getD 0 0 = 5 ∧
    parse_ruuvi_manufacturer_data payload05 =
      match heuristicDecode payload05 with
      | some c => some { format := 5, temperature := c.temperature,
                         humidity := c.humidity, pressure := c.pressure }
      | none => none :=
  ⟨by decide, by decide, by decide,
   tag5_decoded_by_heuristic payload05 (by decide) (by decide) (by decide)⟩

/-- C2 (counterexample): the scenario-3 payload with unknown tag `09`
(big-endian temperature field 2200, humidity byte 45, pressure field 10000)
is NOT decoded at all: the dispatcher returns `None` for any tag outside
{2, 3, 4, 5, 6, 8} instead of invoking the heuristic decoder. -/
theorem scenario3_payload_not_decoded :
    parse_ruuvi_manufacturer_data payload09 = none := by decide

/-- C2 (amended): every payload whose format tag lies outside
{2, 3, 4, 5, 6, 8} is rejected (`None`) by the parser — the heuristic runs
only for those known tags, never as a fallback for unknown tags — and in
particular the heuristic search on the unknown-tag `0x09` payload would
accept the first (big-endian, ÷100, ÷10) hypothesis with temperature 22 °C,
humidity 45 %, pressure 1000 hPa, yet that payload is rejected. -/
theorem unknown_tag_rejected_despite_candidate :
    (∀ data : List Nat, (extractPayload data).getD 0 0 ∉ knownFormats →
      parse_ruuvi_manufacturer_data data = none) ∧
    heuristicDecode payload09 =
      some { temperature := 22, humidity := 45, pressure := 1000,
             endian := Endian.be, tScale := 100, pScale := 10 } := by
  constructor
  · intro data hfmt
    unfold parse_ruuvi_manufacturer_data
    by_cases h1 : data.length < 3
    · rw [if_pos h1]
    · rw [if_neg h1]
      by_cases h2 : 8 ≤ (extractPayload data).length
      · rw [if_pos h2, if_neg hfmt]
      · rw [if_neg h2]
  · with_unfolding_all decide

/-- Witness for C2 (amended) at the unknown-tag scenario-3 payload: its
tag 9 is outside the known set, the parser returns `None`, and the in-range
(big-endian, ÷100, ÷10) hypothesis the heuristic would have accepted. -/
theorem unknown_tag_rejected_despite_candidate_witness :
    (extractPayload payload09).getD 0 0 ∉ knownFormats ∧
    parse_ruuvi_manufacturer_data payload09 = none ∧
    heuristicDecode payload09 =
      some { temperature := 22, humidity := 45, pressure := 1000,
             endian := Endian.be, tScale := 100, pScale := 10 } :=
  ⟨by decide,
   unknown_tag_rejected_despite_candidate.1 payload09 (by decide),
   unknown_tag_rejected_despite_candidate.2⟩

/-- C3 (counterexample): the scenario-2 payload `03 32 14 32 C3 50` padded
to 14 bytes does NOT decode to humidity 25.0 %, temperature 20.50 °C,
pressure 1000.00 hPa — the parser has no exact RAWv1 decoder, runs the
heuristic window search on tag-3 payloads, finds no hypothesis in range
for this payload, and returns `None`. -/
theorem scenario2_payload_not_decoded :
    parse_ruuvi_manufacturer_data payload03 = none := by
  with_unfolding_all decide

/-- C3 (amended): a 14-byte payload with format tag 3 (and no company-id
marker) is decoded by the heuristic byte-order/scale search over the 6-byte
window, not by the exact RAWv1 layout: the result is exactly the first
accepted candidate of that search, or `None` when no hypothesis is in
range. -/
theorem tag3_decoded_by_heuristic (data : List Nat)
    (hlen : data.length = 14)
    (hno : findSubstring ruuviMarker (hexDigits data) = none)
    (hfmt : data.getD 0 0 = 3) :
    parse_ruuvi_manufacturer_data data =
      match heuristicDecode data with
      | some c => some { format := 3, temperature := c.temperature,
                         humidity := c.humidity, pressure := c.pressure }
      | none => none := by
  have h := parse_eq_heuristic_of_known data (by omega) hno (by omega)
    (by rw [hfmt]; decide)
  rw [hfmt] at h
  exact h

/-- Witness for C3 (amended) at the scenario-2 payload. -/
theorem tag3_decoded_by_heuristic_witness :
    payload03.length = 14 ∧
    findSubstring ruuviMarker (hexDigits payload03) = none ∧
    payload03.getD 0 0 = 3 ∧
    parse_ruuvi_manufacturer_data payload03 =
      match heuristicDecode payload03 with
      | some c => some { format := 3, temperature := c.temperature,
                         humidity := c.humidity, pressure := c.pressure }
      | none => none :=
  ⟨by decide, by decide, by decide,
   tag3_decoded_by_heuristic payload03 (by decide) (by decide) (by decide)⟩

/-- C4: the parser returns a reading only when the extracted payload's
format tag is one of 2, 3, 4, 5, 6, 8; for any payload whose tag is outside
this set it returns `None`, however long the payload is and whatever the
heuristic would say about the 6-byte window. -/
theorem parse_requires_known_format (data : List Nat) :
    (∀ r, parse_ruuvi_manufacturer_data data = some r →
        (extractPayload data).getD 0 0 ∈ knownFormats) ∧
    ((extractPayload data).getD 0 0 ∉ knownFormats →
        parse_ruuvi_manufacturer_data data = none) := by
  unfold parse_ruuvi_manufacturer_data
  constructor
  · intro r h
    by_cases h1 : data.length < 3
    · rw [if_pos h1] at h
      exact absurd h (by simp)
    · rw [if_neg h1] at h
      by_cases h2 : 8 ≤ (extractPayload data).length
      · rw [if_pos h2] at h
        by_cases hf : (extractPayload data).getD 0 0 ∈ knownFormats
        · exact hf
        · rw [if_neg hf] at h
          exact absurd h (by simp)
      · rw [if_neg h2] at h
        exact absurd h (by simp)
  · intro hfmt
    by_cases h1 : data.length < 3
    · rw [if_pos h1]
    · rw [if_neg h1]
      by_cases h2 : 8 ≤ (extractPayload data).length
      · rw [if_pos h2, if_neg hfmt]
      · rw [if_neg h2]

/-- Witness for C4 at the unknown-tag scenario-3 payload (whose heuristic
window even has an in-range hypothesis). -/
theorem parse_requires_known_format_witness :
    (extractPayload payload09).getD 0 0 ∉ knownFormats ∧
    parse_ruuvi_manufacturer_data payload09 = none :=
  ⟨by decide, (parse_requires_known_format payload09).2 (by decide)⟩

/-- C5: the heuristic search returns the first accepted candidate of the
fixed enumeration order (big-endian before little-endian; ÷100 before ÷200
before ÷1000; ÷10 before ÷1), and in particular, whenever the
(big-endian, ÷100, ÷10) hypothesis is in range it is the one returned. -/
theorem heuristic_first_accepted_hypothesis (payload : List Nat) :
    heuristicDecode payload =
      ((searchOrder.map fun h => evalHyp payload h.1 h.2.1 h.2.2).find? saneC) ∧
    (saneC (evalHyp payload Endian.be 100 10) = true →
      heuristicDecode payload = some (evalHyp payload Endian.be 100 10)) := by
  constructor
  · unfold heuristicDecode candidatesFor searchOrder
    by_cases h1 : saneC (evalHyp payload Endian.be 100 10) = true
    · simp [h1]
    · by_cases h2 : saneC (evalHyp payload Endian.be 100 1) = true
      · simp [h1, h2]
      · by_cases h3 : saneC (evalHyp payload Endian.be 200 10) = true
        · simp [h1, h2, h3]
        · by_cases h4 : saneC (evalHyp payload Endian.be 200 1) = true
          · simp [h1, h2, h3, h4]
          · by_cases h5 : saneC (evalHyp payload Endian.be 1000 10) = true
            · simp [h1, h2, h3, h4, h5]
            · by_cases h6 : saneC (evalHyp payload Endian.be 1000 1) = true
              · simp [h1, h2, h3, h4, h5, h6]
              · by_cases h7 : saneC (evalHyp payload Endian.le 100 10) = true
                · simp [h1, h2, h3, h4, h5, h6, h7]
                · by_cases h8 : saneC (evalHyp payload Endian.le 100 1) = true
                  · simp [h1, h2, h3, h4, h5, h6, h7, h8]
                  · by_cases h9 : saneC (evalHyp payload Endian.le 200 10) = true
                    · simp [h1, h2, h3, h4, h5, h6, h7, h8, h9]
                    · by_cases hA : saneC (evalHyp payload Endian.le 200 1) = true
                      · simp [h1, h2, h3, h4, h5, h6, h7, h8, h9, hA]
                      · by_cases hB : saneC (evalHyp payload Endian.le 1000 10) = true
                        · simp [h1, h2, h3, h4, h5, h6, h7, h8, h9, hA, hB]
                        · by_cases hC : saneC (evalHyp payload Endian.le 1000 1) = true
                          · simp [h1, h2, h3, h4, h5, h6, h7, h8, h9, hA, hB, hC]
                          · simp [h1, h2, h3, h4, h5, h6, h7, h8, h9, hA, hB, hC]
  · intro h
    unfold heuristicDecode candidatesFor
    simp [h]

/-- Witness for C5 at the tie-break payload, on which both the
(big-endian, ÷100, ÷10) and the (big-endian, ÷200, ÷10) hypotheses are in
range: the former is returned. -/
theorem heuristic_first_accepted_hypothesis_witness :
    saneC (evalHyp payloadTie Endian.be 100 10) = true ∧
    saneC (evalHyp payloadTie Endian.be 200 10) = true ∧
    heuristicDecode payloadTie = some (evalHyp payloadTie Endian.be 100 10) :=
  ⟨by with_unfolding_all decide, by with_unfolding_all decide,
   (heuristic_first_accepted_hypothesis payloadTie).2 (by with_unfolding_all decide)⟩

/-- C6: every reading the parser constructs satisfies the plausibility
bounds: −40 ≤ temperature ≤ 85, 0 ≤ humidity ≤ 100, 300 ≤ pressure ≤ 1200;
an out-of-range triple is never turned into a reading — decoding returns
`None` instead. -/
theorem decoded_reading_in_bounds (data : List Nat) (r : Reading)
    (h : parse_ruuvi_manufacturer_data data = some r) :
    -40 ≤ r.temperature ∧ r.temperature ≤ 85 ∧
    0 ≤ r.humidity ∧ r.humidity ≤ 100 ∧
    300 ≤ r.pressure ∧ r.pressure ≤ 1200 := by
  unfold parse_ruuvi_manufacturer_data at h
  by_cases h1 : data.length < 3
  · rw [if_pos h1] at h
    exact absurd h (by simp)
  · rw [if_neg h1] at h
    by_cases h2 : 8 ≤ (extractPayload data).length
    · rw [if_pos h2] at h
      by_cases hf : (extractPayload data).getD 0 0 ∈ knownFormats
      · rw [if_pos hf] at h
        unfold heuristicDecode at h
        cases hc : candidatesFor (extractPayload data) with
        | nil =>
          rw [hc] at h
          exact absurd h (by simp)
        | cons c t =>
          rw [hc] at h
          simp only [List.head?] at h
          have hr : ({ format := (extractPayload data).getD 0 0,
                       temperature := c.temperature, humidity := c.humidity,
                       pressure := c.pressure } : Reading) = r :=
            Option.some.inj h
          have hmem : c ∈ candidatesFor (extractPayload data) := by
            rw [hc]
            exact List.mem_cons_self c t
          have hs := saneC_of_mem_candidatesFor hmem
          simp only [saneC, sane, Bool.and_eq_true, decide_eq_true_eq] at hs
          obtain ⟨⟨⟨⟨⟨hta, htb⟩, hha⟩, hhb⟩, hpa⟩, hpb⟩ := hs
          rw [← hr]
          exact ⟨hta, htb, hha, hhb, hpa, hpb⟩
      · rw [if_neg hf] at h
        exact absurd h (by simp)
    · rw [if_neg h2] at h
      exact absurd h (by simp)

/-- Witness for C6 at the tie-break payload, which decodes to
(22 °C, 45 %, 1000 hPa). -/
theorem decoded_reading_in_bounds_witness :
    parse_ruuvi_manufacturer_data payloadTie =
      some { format := 2, temperature := 22, humidity := 45, pressure := 1000 } ∧
    (-40 ≤ (22 : ℚ) ∧ (22 : ℚ) ≤ 85 ∧ 0 ≤ (45 : ℚ) ∧ (45 : ℚ) ≤ 100 ∧
      300 ≤ (1000 : ℚ) ∧ (1000 : ℚ) ≤ 1200) :=
  ⟨by with_unfolding_all decide,
   decoded_reading_in_bounds payloadTie
     { format := 2, temperature := 22, humidity := 45, pressure := 1000 }
     (by with_unfolding_all decide)⟩

/-- C7: whenever the extracted payload is shorter than 8 bytes — in
particular of length exactly 7 — the parser returns `None` at the length
guard, before the 6-byte window is ever read. -/
theorem short_payload_not_decoded (data : List Nat)
    (h : (extractPayload data).length < 8) :
    parse_ruuvi_manufacturer_data data = none := by
  unfold parse_ruuvi_manufacturer_data
  by_cases h1 : data.length < 3
  · rw [if_pos h1]
  · rw [if_neg h1, if_neg (by omega)]

/-- Witness for C7 at a payload of length exactly 7. -/
theorem short_payload_not_decoded_witness :
    data7.length = 7 ∧ (extractPayload data7).length < 8 ∧
    parse_ruuvi_manufacturer_data data7 = none :=
  ⟨by decide, by decide, short_payload_not_decoded data7 (by decide)⟩

/-- C8: the extractor never selects a manufacturer payload whose leading
two bytes are the iBeacon signature `0x02 0x15`, whatever its other
content: the selected payload is the first one in dict order that does not
start with the signature, and everything skipped before it does. -/
theorem ibeacon_never_selected (payloads : List (List Nat)) (v : List Nat)
    (h : selectManufacturerPayload payloads = some v) :
    v.take 2 ≠ iBeaconSig ∧
    ∃ pre post, payloads = pre ++ v :: post ∧ ∀ u ∈ pre, u.take 2 = iBeaconSig := by
  unfold selectManufacturerPayload at h
  constructor
  · have hp := List.find?_some h
    simpa using hp
  · obtain ⟨pre, post, heq, hpre⟩ :=
      find?_eq_some_split (fun u => u.take 2 != iBeaconSig) payloads v h
    refine ⟨pre, post, heq, fun u hu => ?_⟩
    have := hpre u hu
    simpa using this

/-- Witness for C8: the iBeacon payload heading the dict is skipped and the
following payload is selected. -/
theorem ibeacon_never_selected_witness :
    selectManufacturerPayload advPayloads = some [8, 1, 2, 3, 4, 5, 6, 7] ∧
    ([8, 1, 2, 3, 4, 5, 6, 7].take 2 ≠ iBeaconSig ∧
      ∃ pre post, advPayloads = pre ++ [8, 1, 2, 3, 4, 5, 6, 7] :: post ∧
        ∀ u ∈ pre, u.take 2 = iBeaconSig) :=
  ⟨by decide, ibeacon_never_selected advPayloads [8, 1, 2, 3, 4, 5, 6, 7] (by decide)⟩

/-- C9: a non-success response whose `error_description` equals the fixed
invalid-credentials message raises the distinct `LoginError`, not a generic
publish failure. -/
theorem invalid_credentials_raise_login_error (r : ApiResponse)
    (hst : r.statusCode ≠ 200)
    (hd : r.errorDescription = some INVALID_DETAILS_MESSAGE) :
    Particle.api r = .error .loginError := by
  unfold Particle.api
  rw [if_pos hst, hd]
  simp

/-- Witness for C9 at a 400 response carrying the invalid-credentials
message. -/
theorem invalid_credentials_raise_login_error_witness :
    respInvalid.statusCode ≠ 200 ∧
    respInvalid.errorDescription = some INVALID_DETAILS_MESSAGE ∧
    Particle.api respInvalid = .error .loginError :=
  ⟨by decide, rfl, invalid_credentials_raise_login_error respInvalid (by decide) rfl⟩

/-- C10: on a non-success response the error message is chosen in the fixed
preference order: the `error_description` field when present (and distinct
from the invalid-credentials message), otherwise the `error` field when
present, otherwise the raw response body together with the status code. -/
theorem api_error_message_preference (r : ApiResponse) (hst : r.statusCode ≠ 200) :
    (∀ d, r.errorDescription = some d → d ≠ INVALID_DETAILS_MESSAGE →
        Particle.api r = .error (.apiError d)) ∧
    (r.errorDescription = none → ∀ e, r.error = some e →
        Particle.api r = .error (.apiError e)) ∧
    (r.errorDescription = none → r.error = none →
        Particle.api r = .error (.apiError
          ("API Error (Status " ++ toString r.statusCode ++ "): " ++ r.text))) := by
  refine ⟨fun d hd hne => ?_, fun hd e he => ?_, fun hd he => ?_⟩ <;>
    unfold Particle.api
  · rw [if_pos hst, hd]
    simp [hne]
  · rw [if_pos hst, hd, he]
  · rw [if_pos hst, hd, he]

/-- Witness for C10 at a 500 response with only a generic `error` field. -/
theorem api_error_message_preference_witness :
    respPlain.statusCode ≠ 200 ∧ respPlain.errorDescription = none ∧
    respPlain.error = some "boom" ∧
    Particle.api respPlain = .error (.apiError "boom") :=
  ⟨by decide, rfl, rfl,
   (api_error_message_preference respPlain (by decide)).2.1 rfl "boom" rfl⟩

end RuuviParticle
